import Mathlib

/-!
Verification development for the resumable event-stream session engine of
the deer-flow web client (src/web/src/core/store/store.ts).

The TypeScript source is shallowly embedded below:
* JS `Map` values keyed by strings become insertion-ordered association
  lists (`mapSet` / `mapGet` reproduce `Map.set` / `Map.get` semantics:
  `set` updates in place keeping the position, otherwise appends).
* Event payloads are the output of the JS builtin `JSON.parse`; they are
  embedded as a `Json` inductive together with `jsonParse`, a model of
  `JSON.parse` on the JSON fragment the stream uses (integers, strings
  with quote/backslash escapes, booleans, null, arrays, objects;
  whitespace is space, tab, CR, LF as in the JSON grammar).
* Functions whose TypeScript body can throw a `TypeError`
  (`appendResearch`'s `planMessage!.id`, `appendResearchActivity`'s
  `current!`) return `Option`: `none` is the thrown exception, and the
  throw happens before any store mutation in those bodies, so the state
  at the catch site is the state before the call.
* The 16ms batched-update timer of `processEventStream` is real-time
  nondeterminism; we model the execution in which every scheduled flush
  fires before the next event is pulled (every `pendingUpdates.set` is
  immediately followed by the `updateMessages` flush).  The spec treats
  the coalescing window as a tuning parameter, not a correctness
  constraint, and no claim below depends on it.
-/

/-- Model of a JavaScript JSON value as produced by `JSON.parse`
(numbers restricted to integers, which is all the stream payloads in the
claims use). -/
inductive Json where
  | null : Json
  | bool (b : Bool) : Json
  | num (n : Int) : Json
  | str (s : String) : Json
  | arr (elems : List Json) : Json
  | obj (fields : List (String × Json)) : Json

/-- JS property access `j[k]` on a parsed JSON value: `none` is
`undefined` (non-object receiver or missing key). -/
def Json.getField : Json → String → Option Json
  | .obj fields, k => (fields.find? (fun p => p.1 == k)).map (·.2)
  | _, _ => none

/-- Extract a JS string, `none` when the value is not a string
(so a `===` comparison against a string literal is false). -/
def Json.asStr : Json → Option String
  | .str s => some s
  | _ => none

/-- JS truthiness of a parsed JSON value: `null`, `false`, `0` and `""`
are falsy; objects and arrays (even empty) are truthy. -/
def jsonTruthy : Json → Bool
  | .null => false
  | .bool b => b
  | .num n => n != 0
  | .str s => s != ""
  | .arr _ => true
  | .obj _ => true

/-- JSON grammar whitespace (space, tab, line feed, carriage return). -/
def jsonWs (c : Char) : Bool :=
  c = ' ' || c = '\t' || c = '\n' || c = '\r'

/-- Drop leading JSON whitespace. -/
def skipWs (cs : List Char) : List Char :=
  cs.dropWhile jsonWs

/-- Decimal digits to a natural number. -/
def digitsToNat (ds : List Char) : Nat :=
  ds.foldl (fun a c => a * 10 + (c.toNat - '0'.toNat)) 0

/-- Body of a JSON string literal after the opening quote: the decoded
characters and the remainder after the closing quote.  Supports the
escapes `\"` and `\\`; anything else after a backslash is a parse
failure. -/
def parseStringChars : List Char → Option (List Char × List Char)
  | [] => none
  | c :: rest =>
    if c = '"' then some ([], rest)
    else if c = '\\' then
      match rest with
      | e :: rest2 =>
        if e = '"' || e = '\\' then
          (parseStringChars rest2).map (fun p => (e :: p.1, p.2))
        else none
      | [] => none
    else (parseStringChars rest).map (fun p => (c :: p.1, p.2))

mutual

/-- Fueled JSON value parser (the fuel only bounds recursion depth; one
unit is consumed per character of nesting, so `length + 1` fuel always
suffices). -/
def parseJsonValue : Nat → List Char → Option (Json × List Char)
  | 0, _ => none
  | Nat.succ f, cs =>
    match cs with
    | [] => none
    | c :: rest =>
      if c = 'n' then
        match rest with
        | 'u' :: 'l' :: 'l' :: rest2 => some (Json.null, rest2)
        | _ => none
      else if c = 't' then
        match rest with
        | 'r' :: 'u' :: 'e' :: rest2 => some (Json.bool true, rest2)
        | _ => none
      else if c = 'f' then
        match rest with
        | 'a' :: 'l' :: 's' :: 'e' :: rest2 => some (Json.bool false, rest2)
        | _ => none
      else if c = '"' then
        (parseStringChars rest).map (fun p => (Json.str (String.mk p.1), p.2))
      else if c = '-' then
        let ds := rest.takeWhile Char.isDigit
        if ds.isEmpty then none
        else some (Json.num (-(digitsToNat ds : Int)), rest.dropWhile Char.isDigit)
      else if c.isDigit then
        let ds := cs.takeWhile Char.isDigit
        some (Json.num (digitsToNat ds : Int), cs.dropWhile Char.isDigit)
      else if c = '[' then
        let rest1 := skipWs rest
        match rest1 with
        | ']' :: rest2 => some (Json.arr [], rest2)
        | _ =>
          (parseArrayItems f rest1).map (fun p => (Json.arr p.1, p.2))
      else if c = '{' then
        let rest1 := skipWs rest
        match rest1 with
        | '}' :: rest2 => some (Json.obj [], rest2)
        | _ =>
          (parseObjItems f rest1).map (fun p => (Json.obj p.1, p.2))
      else none

/-- One or more comma-separated array items followed by `]`. -/
def parseArrayItems : Nat → List Char → Option (List Json × List Char)
  | 0, _ => none
  | Nat.succ f, cs =>
    match parseJsonValue f cs with
    | none => none
    | some (j, rest) =>
      match skipWs rest with
      | ',' :: rest2 =>
        (parseArrayItems f (skipWs rest2)).map (fun p => (j :: p.1, p.2))
      | ']' :: rest2 => some ([j], rest2)
      | _ => none

/-- One or more comma-separated `"key": value` members followed by `}`. -/
def parseObjItems : Nat → List Char → Option (List (String × Json) × List Char)
  | 0, _ => none
  | Nat.succ f, cs =>
    match cs with
    | '"' :: rest =>
      match parseStringChars rest with
      | none => none
      | some (key, rest1) =>
        match skipWs rest1 with
        | ':' :: rest2 =>
          match parseJsonValue f (skipWs rest2) with
          | none => none
          | some (j, rest3) =>
            match skipWs rest3 with
            | ',' :: rest4 =>
              (parseObjItems f (skipWs rest4)).map
                (fun p => ((String.mk key, j) :: p.1, p.2))
            | '}' :: rest4 => some ([(String.mk key, j)], rest4)
            | _ => none
        | _ => none
    | _ => none

end

/-- Model of the JS builtin `JSON.parse` on the JSON fragment described
above: `none` is a thrown `SyntaxError` (malformed input or trailing
garbage). -/
def jsonParse (s : String) : Option Json :=
  match parseJsonValue (s.length + 1) (skipWs s.toList) with
  | some (j, rest) => if (skipWs rest).isEmpty then some j else none
  | none => none

/-- JS `Map.get` on an insertion-ordered association list. -/
def mapGet {β : Type} (m : List (String × β)) (k : String) : Option β :=
  (m.find? (fun p => p.1 == k)).map (·.2)

/-- JS `Map.set` on an insertion-ordered association list: an existing
key keeps its position and gets the new value, a new key is appended. -/
def mapSet {β : Type} (m : List (String × β)) (k : String) (v : β) :
    List (String × β) :=
  if m.any (fun p => p.1 == k) then
    m.map (fun p => if p.1 == k then (k, v) else p)
  else m ++ [(k, v)]

/-- One tool invocation attached to a message (`message.toolCalls`
entries; only the fields the store inspects are kept). -/
structure ToolCall where
  id : String
  result : Option String := none
deriving DecidableEq

/-- The `Message` interface of `src/web/src/core/messages` as used by
the store.  Fields that are optional in TypeScript are `Option`s;
`toolCalls` distinguishes `undefined` (`none`) from an empty array. -/
structure Message where
  id : String
  threadId : Option String := none
  agent : Option String := none
  role : Option String := none
  content : String := ""
  contentChunks : List String := []
  reasoningContent : String := ""
  reasoningContentChunks : List String := []
  toolCalls : Option (List ToolCall) := none
  isStreaming : Bool := false
  finishReason : Option String := none
  interruptFeedback : Option String := none
deriving DecidableEq

/-- The zustand store state (`useStore` in store.ts), minus the
conversation-list fields no claim touches.  `researchCitations` holds
the raw JSON payload passed to `setCitations`, exactly as the
TypeScript store holds the parsed JS value. -/
structure StoreState where
  responding : Bool := false
  threadId : Option String := none
  messageIds : List String := []
  messages : List (String × Message) := []
  researchIds : List String := []
  researchPlanIds : List (String × String) := []
  researchReportIds : List (String × String) := []
  researchActivityIds : List (String × List String) := []
  researchQueries : List (String × String) := []
  researchCitations : List (String × Json) := []
  ongoingResearchId : Option String := none
  openResearchId : Option String := none

/-- A decoded stream event: the `ChatEvent` cast in the source is a
plain record of the frame's `event:` label and its `JSON.parse`d
`data:` payload. -/
structure ChatEvent where
  type : String
  data : Json

/-- Read a string-valued property of the event payload. -/
def ChatEvent.strField (e : ChatEvent) (k : String) : Option String :=
  (e.data.getField k).bind Json.asStr

def idOf (e : ChatEvent) : Option String := e.strField "id"
def threadIdOf (e : ChatEvent) : Option String := e.strField "thread_id"
def agentOf (e : ChatEvent) : Option String := e.strField "agent"
def roleOf (e : ChatEvent) : Option String := e.strField "role"
def reasonOf (e : ChatEvent) : Option String := e.strField "reason"
def finishReasonOf (e : ChatEvent) : Option String := e.strField "finish_reason"
def contentOf (e : ChatEvent) : Option String := e.strField "content"
def reasoningContentOf (e : ChatEvent) : Option String :=
  e.strField "reasoning_content"
def toolCallIdOf (e : ChatEvent) : Option String := e.strField "tool_call_id"

/-- JS falsiness of a possibly-absent string (`undefined` and `""` are
falsy), used for `if (!getOngoingResearchId())` style checks. -/
def jsOptStrFalsy : Option String → Bool
  | none => true
  | some s => s == ""

/-- The four delegated research agents recognised by the module-level
`appendMessage` (store.ts lines 346-352). -/
def isDelegatedAgent : Option String → Bool
  | some a => a == "coder" || a == "reporter" || a == "researcher" || a == "analyst"
  | none => false

/-- Whether a message's invocation list carries the given tool-call id
(the predicate inside `findMessageByToolCallId`, store.ts lines
338-343; `toolCalls` must be present, then `some` over the entries). -/
def hasToolCall (toolCallId : String) (m : Message) : Bool :=
  match m.toolCalls with
  | some tcs => tcs.any (fun tc => tc.id == toolCallId)
  | none => false

/-- Store action `appendMessage` (store.ts lines 99-110): the id is
appended to `messageIds` only when absent, while the `messages` map
entry is always set to the incoming message. -/
def storeAppendMessage (st : StoreState) (m : Message) : StoreState :=
  { st with
    messageIds :=
      if st.messageIds.contains m.id then st.messageIds
      else st.messageIds ++ [m.id],
    messages := mapSet st.messages m.id m }

/-- Store action `updateMessage` (store.ts lines 111-115): plain upsert
by id. -/
def storeUpdateMessage (st : StoreState) (m : Message) : StoreState :=
  { st with messages := mapSet st.messages m.id m }

/-- Store action `updateMessages` (store.ts lines 116-122): batch
upsert in list order. -/
def storeUpdateMessages (st : StoreState) (ms : List Message) : StoreState :=
  { st with
    messages := ms.foldl (fun acc m => mapSet acc m.id m) st.messages }

/-- Store action `setCitations` (store.ts lines 132-136): replaces the
citation payload for the research id. -/
def setCitations (st : StoreState) (researchId : String) (citations : Json) :
    StoreState :=
  { st with
    researchCitations := mapSet st.researchCitations researchId citations }

/-- `findMessageByToolCallId` (store.ts lines 335-344): scan the map's
values in reverse insertion order for the first message whose
invocation list contains the id. -/
def findMessageByToolCallId (st : StoreState) (toolCallId : String) :
    Option Message :=
  (st.messages.map (·.2)).reverse.find? (hasToolCall toolCallId)

/-- The backward scan of `appendResearch` for the nearest preceding
planner message (store.ts lines 381-385). -/
def plannerScan (st : StoreState) : Option Message :=
  st.messageIds.reverse.findSome? (fun mid =>
    match mapGet st.messages mid with
    | some m => if m.agent == some "planner" then some m else none
    | none => none)

/-- The backward scan of `appendResearch` for the nearest preceding
user query (store.ts lines 381-389). -/
def userQueryScan (st : StoreState) : Option String :=
  st.messageIds.reverse.findSome? (fun mid =>
    match mapGet st.messages mid with
    | some m => if m.role == some "user" then some m.content else none
    | none => none)

/-- `appendResearch` (store.ts lines 378-412): scan stored messages
newest-first for the nearest planner message and the nearest user
query, then record the new research unit.  The source reads
`planMessage!.id`; when the scan finds no planner message that
non-null assertion dereferences `undefined` and throws a `TypeError`
before any state is written, which this embedding returns as `none`. -/
def appendResearch (st : StoreState) (researchId : String) :
    Option StoreState :=
  match plannerScan st with
  | none => none
  | some pm =>
    some { st with
      ongoingResearchId := some researchId,
      researchIds := st.researchIds ++ [researchId],
      researchPlanIds := mapSet st.researchPlanIds researchId pm.id,
      researchActivityIds :=
        mapSet st.researchActivityIds researchId [pm.id, researchId],
      researchQueries :=
        mapSet st.researchQueries researchId ((userQueryScan st).getD "") }

/-- The activity-list extension inside `appendResearchActivity`
(store.ts lines 419-426): append the message id unless present. -/
def applyActivityAppend (st : StoreState) (rid : String)
    (current : List String) (m : Message) : StoreState :=
  if current.contains m.id then st
  else { st with
    researchActivityIds :=
      mapSet st.researchActivityIds rid (current ++ [m.id]) }

/-- The reporter link inside `appendResearchActivity` (store.ts lines
427-434): a reporter message becomes the unit's report. -/
def applyReporterLink (st : StoreState) (rid : String) (m : Message) :
    StoreState :=
  if m.agent == some "reporter" then
    { st with researchReportIds := mapSet st.researchReportIds rid m.id }
  else st

/-- `appendResearchActivity` (store.ts lines 414-436).  The source
reads `researchActivityIds.get(researchId)!`; a missing entry makes the
subsequent `.includes` call throw before any state is written
(`none`). -/
def appendResearchActivity (st : StoreState) (m : Message) :
    Option StoreState :=
  match st.ongoingResearchId with
  | none => some st
  | some rid =>
    if rid == "" then some st
    else
      match mapGet st.researchActivityIds rid with
      | none => none
      | some current =>
        some (applyReporterLink (applyActivityAppend st rid current m) rid m)

/-- Module-level `appendMessage` (store.ts lines 346-361): research
bookkeeping for delegated agents, then the store append.  `none` is a
`TypeError` escaping from `appendResearch`/`appendResearchActivity`;
both throw before mutating, so on `none` the store is unchanged. -/
def appendMessage (st : StoreState) (m : Message) : Option StoreState :=
  if isDelegatedAgent m.agent then
    (if jsOptStrFalsy st.ongoingResearchId then
        (appendResearch st m.id).map
          (fun s => { s with openResearchId := some m.id })
      else some st).bind
      (fun st1 => (appendResearchActivity st1 m).map
        (fun st2 => storeAppendMessage st2 m))
  else some (storeAppendMessage st m)

/-- Modelled from the spec: the Message Merge Engine (`mergeMessage`
from `src/web/src/core/messages`) is imported by store.ts but its
source is not part of this repository snapshot; this definition follows
spec section 4.3 (message-delta appends the text fragment and records a
terminal marker; tool-invocation envelopes extend the invocation list;
a tool-result attaches its payload to the matching invocation; other
kinds do not merge).  No claim below depends on more than this. -/
def mergeMessage (m : Message) (e : ChatEvent) : Message :=
  if e.type == "message_chunk" then
    let m1 :=
      match contentOf e with
      | some c =>
        { m with content := m.content ++ c,
                 contentChunks := m.contentChunks ++ [c] }
      | none => m
    let m2 :=
      match reasoningContentOf e with
      | some c =>
        { m1 with reasoningContent := m1.reasoningContent ++ c,
                  reasoningContentChunks := m1.reasoningContentChunks ++ [c] }
      | none => m1
    match finishReasonOf e with
    | some fr => { m2 with finishReason := some fr, isStreaming := false }
    | none => m2
  else if e.type == "tool_calls" then
    match e.data.getField "tool_calls" with
    | some (Json.arr items) =>
      let newCalls := items.filterMap (fun j =>
        ((j.getField "id").bind Json.asStr).map (fun i => ToolCall.mk i none))
      { m with toolCalls := some (m.toolCalls.getD [] ++ newCalls) }
    | _ => m
  else if e.type == "tool_call_result" then
    match toolCallIdOf e with
    | some tid =>
      { m with
        toolCalls := m.toolCalls.map (fun tcs =>
          tcs.map (fun tc =>
            if tc.id == tid then { tc with result := contentOf e } else tc)),
        isStreaming := false }
    | none => m
  else m

/-- Fallback toast text for an error envelope whose `error` field is
falsy (store.ts line 174). -/
def defaultErrorToast : String :=
  "An error occurred while generating the response."

/-- Toast text of the catch block around the consuming loop (store.ts
line 226). -/
def genericErrorToast : String :=
  "An error occurred while generating the response. Please try again."

/-- `toast(data.error || "...")` for an error envelope.  A truthy
non-string `error` value would be rendered by the toast library; its
text is not claim-relevant and collapses to the default here. -/
def errorToastOf (e : ChatEvent) : String :=
  match e.data.getField "error" with
  | some (Json.str s) => if s == "" then defaultErrorToast else s
  | _ => defaultErrorToast

/-- Effect of dispatching one event inside `processEventStream`'s loop
body (store.ts lines 172-221 plus the catch block, lines 223-235):
the new store, toasts emitted, whether an exception escaped, and
whether the loop continues pulling events. -/
structure DispatchOut where
  store : StoreState
  newToasts : List String := []
  crashed : Bool := false
  cont : Bool := true

/-- Dispatch of one event in `processEventStream` (store.ts lines
172-221).  Branches in source order: `error` breaks the loop (toast
unless the reason is `"cancelled"`); `citations` replaces the ongoing
unit's citation payload when both the ongoing id and the payload are
truthy; `tool_call_result` merges into the owner of the carried
tool-call id, or is dropped; anything else merges into the message of
the carried id, creating it (streaming, with the interrupt feedback)
via the module-level `appendMessage` first when absent.  A payload
whose `id` is not a string is modelled as skipped (the source would
fold such events into a single `undefined`-keyed message; no claim
involves one).  Each merged message is flushed immediately (see the
scheduler note in the header).  A `TypeError` from `appendMessage` is
the catch block: generic toast, un-stream the current message if it
exists, clear the ongoing research id, stop the loop. -/
def dispatchEvent (interruptFeedback : Option String) (st : StoreState)
    (e : ChatEvent) : DispatchOut :=
  if e.type == "error" then
    { store := st,
      newToasts :=
        if reasonOf e == some "cancelled" then [] else [errorToastOf e],
      cont := false }
  else if e.type == "citations" then
    match st.ongoingResearchId, e.data.getField "citations" with
    | some rid, some cs =>
      if rid != "" && jsonTruthy cs then { store := setCitations st rid cs }
      else { store := st }
    | _, _ => { store := st }
  else if e.type == "tool_call_result" then
    match toolCallIdOf e with
    | some tid =>
      match findMessageByToolCallId st tid with
      | some m => { store := storeUpdateMessages st [mergeMessage m e] }
      | none => { store := st }
    | none => { store := st }
  else
    match idOf e with
    | none => { store := st }
    | some mid =>
      if st.messageIds.contains mid then
        match mapGet st.messages mid with
        | some m => { store := storeUpdateMessages st [mergeMessage m e] }
        | none => { store := st }
      else
        let newMsg : Message :=
          { id := mid, threadId := threadIdOf e, agent := agentOf e,
            role := roleOf e, isStreaming := true,
            interruptFeedback := interruptFeedback }
        match appendMessage st newMsg with
        | some st1 => { store := storeUpdateMessages st1 [mergeMessage newMsg e] }
        | none =>
          let stC :=
            match mapGet st.messages mid with
            | some m =>
              if m.isStreaming then
                storeUpdateMessage st { m with isStreaming := false }
              else st
            | none => st
          { store := { stC with ongoingResearchId := none },
            newToasts := [genericErrorToast], crashed := true, cont := false }

/-- Running state of the consuming loop: the store, the in-memory
`eventIndex`, the value persisted by `setStoredEventIndex`, the toasts
shown so far, plus two ghost fields used only to state theorems —
`consumed` counts loop iterations and `crashed` records whether the
loop exited through the catch block. -/
structure ProcState where
  store : StoreState
  eventIndex : Nat
  storedIndex : Nat
  toasts : List String := []
  consumed : Nat := 0
  crashed : Bool := false

/-- Top of the loop body (store.ts lines 167-170): when
`trackEventIndex` is set, increment the event index and persist it —
before the event is dispatched.  The ghost iteration counter always
increments. -/
def bumpCursor (trackEventIndex : Bool) (s : ProcState) : ProcState :=
  let s1 := { s with consumed := s.consumed + 1 }
  if trackEventIndex then
    { s1 with eventIndex := s1.eventIndex + 1, storedIndex := s1.eventIndex + 1 }
  else s1

/-- One full iteration of the consuming loop: cursor bump, then
dispatch; returns the new state and whether to keep pulling events. -/
def procStep (trackEventIndex : Bool) (interruptFeedback : Option String)
    (s : ProcState) (e : ChatEvent) : ProcState × Bool :=
  let s1 := bumpCursor trackEventIndex s
  let d := dispatchEvent interruptFeedback s1.store e
  ({ s1 with store := d.store, toasts := s1.toasts ++ d.newToasts,
             crashed := s1.crashed || d.crashed },
   d.cont)

/-- The `for await` loop of `processEventStream` over an event list. -/
def procGo (trackEventIndex : Bool) (interruptFeedback : Option String) :
    ProcState → List ChatEvent → ProcState
  | s, [] => s
  | s, e :: rest =>
    let (s1, cont) := procStep trackEventIndex interruptFeedback s e
    if cont then procGo trackEventIndex interruptFeedback s1 rest else s1

/-- `processEventStream` (store.ts lines 143-242) on a list of decoded
events: `storedIndex` is the locally persisted cursor before the call
(`getStoredEventIndex()`); when `trackEventIndex` is false the local
`eventIndex` starts at 0 and the persisted value is never written. -/
def processEventStream (trackEventIndex : Bool)
    (interruptFeedback : Option String) (st : StoreState)
    (storedIndex : Nat) (events : List ChatEvent) : ProcState :=
  procGo trackEventIndex interruptFeedback
    { store := st,
      eventIndex := if trackEventIndex then storedIndex else 0,
      storedIndex := storedIndex }
    events

/-- The stream-consumption portion of `sendMessage` (store.ts lines
270-281 and 313-318): `setResponding(true)`, consume the stream with
`trackEventIndex` enabled, `setResponding(false)`. -/
def sendMessageConsume (st : StoreState) (storedIndex : Nat)
    (interruptFeedback : Option String) (events : List ChatEvent) :
    ProcState :=
  let st1 := { st with responding := true }
  let r := processEventStream true interruptFeedback st1 storedIndex events
  { r with store := { r.store with responding := false } }

/-- Does the second list start with the first? (structurally recursive
so concrete frames reduce definitionally). -/
def listStartsWith : List Char → List Char → Bool
  | [], _ => true
  | _ :: _, [] => false
  | p :: ps, c :: cs => p == c && listStartsWith ps cs

/-- Fueled splitter on a non-empty separator: the model of
`String.splitOn` / JS `indexOf`-and-slice loops, written with
structural recursion on fuel so concrete strings evaluate.  One fuel
unit is consumed per step and every step consumes at least one
character, so `length + 1` fuel always suffices. -/
def splitOnAuxFuel (sep : List Char) : Nat → List Char → List Char →
    List (List Char)
  | 0, cs, acc => [acc.reverse ++ cs]
  | Nat.succ f, cs, acc =>
    match cs with
    | [] => [acc.reverse]
    | c :: rest =>
      if listStartsWith sep cs then
        acc.reverse :: splitOnAuxFuel sep f (cs.drop sep.length) []
      else splitOnAuxFuel sep f rest (c :: acc)

/-- Split on every non-overlapping occurrence of the separator, left
to right (the semantics of JS `split` and of the repeated
first-occurrence slicing in `chatStreamReconnect`). -/
def strSplitOn (sep : String) (s : String) : List String :=
  if sep.length = 0 then [s]
  else (splitOnAuxFuel sep.toList (s.length + 1) s.toList []).map String.mk

/-- JS `Array.join` / `String.intercalate`. -/
def strJoin (sep : String) : List String → String
  | [] => ""
  | [x] => x
  | x :: xs => x ++ sep ++ strJoin sep xs

/-- JS `String.trim` (on the whitespace the stream frames contain:
space, tab, CR, LF). -/
def strTrim (s : String) : String :=
  String.mk
    (((s.toList.dropWhile Char.isWhitespace).reverse.dropWhile
        Char.isWhitespace).reverse)

/-- Label-line fold of `parseSSEEvent` (store.ts lines 1125-1132):
running `(eventType, data)` accumulator over the chunk's lines; a line
without `": "` is skipped, later labelled lines overwrite earlier
ones. -/
def extractSSE (chunk : String) : String × Option String :=
  (strSplitOn "\n" chunk).foldl
    (fun acc line =>
      match strSplitOn ": " line with
      | [] => acc
      | [_] => acc
      | k :: rest =>
        let v := strJoin ": " rest
        if k == "event" then (v, acc.2)
        else if k == "data" then (acc.1, some v)
        else acc)
    ("message", none)

/-- `parseSSEEvent` (store.ts lines 1122-1139): fails soft — a missing
or empty `data` line, or a payload `JSON.parse` rejects, yields
`none`. -/
def parseSSEEvent (chunk : String) : Option ChatEvent :=
  match extractSSE chunk with
  | (_, none) => none
  | (eventType, some d) =>
    if d == "" then none
    else
      match jsonParse d with
      | some j => some ⟨eventType, j⟩
      | none => none

/-- Frame decoding of `chatStreamReconnect` (store.ts lines 1095-1116)
applied to the complete body text: the loop repeatedly splits on the
first `"\n\n"`, and the `done` branch processes the trimmed trailing
buffer — together exactly a `splitOn "\n\n"` where each non-blank part
is trimmed and parsed.  Chunk boundaries of the underlying reader do
not affect the result, so the whole body is taken at once. -/
def decodeSSEBody (body : String) : List ChatEvent :=
  (strSplitOn "\n\n" body).filterMap (fun c =>
    if strTrim c == "" then none else parseSSEEvent (strTrim c))

/-- JS `s.replace(/\r\n/g, "\n")`. -/
def replaceCRLF (s : String) : String :=
  strJoin "\n" (strSplitOn "\r\n" s)

/-- JS `s.replace(/^label:\s*/, "")`: strip the label and any
following whitespace when the string starts with the label, otherwise
return it unchanged. -/
def stripLabel (label : String) (s : String) : String :=
  if listStartsWith label.toList s.toList then
    String.mk ((s.toList.drop label.length).dropWhile Char.isWhitespace)
  else s

/-- Per-frame decoding of the durable-history replay (restoreSession,
store.ts lines 694-705): normalise CRLF, trim, need at least an event
line and a data line, strip the labels, `JSON.parse` the rest; a parse
failure is caught and skips the frame (`none`). -/
def decodeHistoryFrame (raw : String) : Option ChatEvent :=
  match strSplitOn "\n" (strTrim (replaceCRLF raw)) with
  | [] => none
  | [_] => none
  | eventLine :: rest =>
    (jsonParse (stripLabel "data:" (strJoin "\n" rest))).map
      (fun d => ⟨stripLabel "event:" eventLine, d⟩)

/-- Common tail of the replay loop (store.ts lines 750-755): refetch
the message, merge the event through the same Merge Engine as a live
envelope, force `isStreaming := false`, upsert. -/
def applyMergeForced (st : StoreState) (mid : String) (e : ChatEvent) :
    StoreState :=
  match mapGet st.messages mid with
  | none => st
  | some m => storeUpdateMessage st { mergeMessage m e with isStreaming := false }

/-- One iteration of the durable-history replay loop (restoreSession,
store.ts lines 692-759).  The whole body is inside a per-frame
`try`/`catch`, so a decode failure or a `TypeError` from
`appendMessage` (which throws before mutating) skips the frame and
keeps the state.  `error` frames are skipped; `citations` frames go
through `setCitations`; `tool_call_result` frames target the owner of
the tool-call id or are dropped; other frames create the message
non-streaming when absent, then merge with `isStreaming` forced
false. -/
def replayStep (st : StoreState) (raw : String) : StoreState :=
  match decodeHistoryFrame raw with
  | none => st
  | some e =>
    if e.type == "error" then st
    else if e.type == "citations" then
      match st.ongoingResearchId, e.data.getField "citations" with
      | some rid, some cs =>
        if rid != "" && jsonTruthy cs then setCitations st rid cs else st
      | _, _ => st
    else if e.type == "tool_call_result" then
      match toolCallIdOf e with
      | some tid =>
        match findMessageByToolCallId st tid with
        | some owner => applyMergeForced st owner.id e
        | none => st
      | none => st
    else
      match idOf e with
      | none => st
      | some mid =>
        if st.messageIds.contains mid then applyMergeForced st mid e
        else
          match appendMessage st
              { id := mid, threadId := threadIdOf e, agent := agentOf e,
                role := roleOf e, isStreaming := false } with
          | none => st
          | some st1 => applyMergeForced st1 mid e

/-- The durable-history replay of `restoreSession` over the fetched raw
frame list. -/
def replayHistory (st : StoreState) (frames : List String) : StoreState :=
  frames.foldl replayStep st

/-- `useLastInterruptMessage` (store.ts lines 565-577) as a pure
projection of the store state. -/
def useLastInterruptMessage (st : StoreState) : Option Message :=
  if 2 ≤ st.messageIds.length then
    match st.messageIds[st.messageIds.length - 1]? with
    | some lastId =>
      match mapGet st.messages lastId with
      | some m => if m.finishReason == some "interrupt" then some m else none
      | none => none
    | none => none
  else none

/-- `useLastFeedbackMessageId` (store.ts lines 579-594) as a pure
projection of the store state. -/
def useLastFeedbackMessageId (st : StoreState) : Option String :=
  if 2 ≤ st.messageIds.length then
    match st.messageIds[st.messageIds.length - 1]? with
    | some lastId =>
      match mapGet st.messages lastId with
      | some m =>
        if m.finishReason == some "interrupt" then
          st.messageIds[st.messageIds.length - 2]?
        else none
      | none => none
    | none => none
  else none

/-- All stored messages are non-streaming (the store-wide invariant of
claim C5). -/
def allNonStreaming (st : StoreState) : Bool :=
  st.messages.all (fun p => !p.2.isStreaming)

/-- No message reachable through the ordered id list has the planner
agent (the hypothesis of claim C2's backward scan). -/
def noPlannerStored (st : StoreState) : Bool :=
  st.messageIds.all (fun mid =>
    match mapGet st.messages mid with
    | some m => !(m.agent == some "planner")
    | none => true)

/-! Concrete states, events and wire bodies used by the counterexample
and witness theorems below. -/

/-- A stream whose three events are all received but none applied: a
citations envelope with no ongoing research unit, a tool-result with no
matching invocation, and a cancelling error envelope. -/
def c1Events : List ChatEvent :=
  [⟨"citations", Json.obj [("citations", Json.arr [])]⟩,
   ⟨"tool_call_result", Json.obj [("tool_call_id", Json.str "t0")]⟩,
   ⟨"error", Json.obj [("reason", Json.str "cancelled")]⟩]

/-- A store holding one user message and no planner message. -/
def c2State : StoreState :=
  { messageIds := ["u1"],
    messages := [("u1", { id := "u1", role := some "user", content := "q" })] }

def c3MsgX : Message := { id := "a", content := "x" }

def c3MsgY : Message := { id := "a", content := "y" }

def c3State : StoreState :=
  { messageIds := ["a"], messages := [("a", c3MsgX)] }

def c3WitState : StoreState :=
  { messageIds := ["a", "b"],
    messages := [("a", c3MsgX), ("b", { id := "b" })] }

/-- Two well-formed frames with LF line endings. -/
def lfBody : String := "event: a\ndata: 1\n\nevent: b\ndata: 2\n\n"

/-- The same two frames with CRLF line endings and a CRLF blank-line
separator. -/
def crlfBody : String :=
  "event: a\r\ndata: 1\r\n\r\nevent: b\r\ndata: 2\r\n\r\n"

/-- Durable-history frames: one message frame, one error frame, one
undecodable frame. -/
def c5Frames : List String :=
  ["event: message_chunk\ndata: \x7b\"id\": \"m1\", \"role\": \"assistant\", \"content\": \"hi\"\x7d",
   "event: error\ndata: \x7b\"reason\": \"x\"\x7d",
   "garbage"]

def c6State : StoreState :=
  { researchIds := ["r1"], researchActivityIds := [("r1", ["r1"])],
    ongoingResearchId := some "r1" }

def c6EvA : ChatEvent :=
  ⟨"citations", Json.obj [("citations", Json.arr [Json.obj [("url", Json.str "a")]])]⟩

def c6EvB : ChatEvent :=
  ⟨"citations", Json.obj [("citations", Json.arr [Json.obj [("url", Json.str "b")]])]⟩

def c7M1 : Message := { id := "m1", toolCalls := some [⟨"t1", none⟩] }

def c7M2 : Message := { id := "m2", toolCalls := some [⟨"t1", none⟩] }

def c7State : StoreState :=
  { messageIds := ["m1", "m2"],
    messages := [("m1", c7M1), ("m2", c7M2)] }

def c7Ev : ChatEvent :=
  ⟨"tool_call_result",
   Json.obj [("tool_call_id", Json.str "t1"), ("content", Json.str "ok")]⟩

def c7EvMiss : ChatEvent :=
  ⟨"tool_call_result", Json.obj [("tool_call_id", Json.str "tX")]⟩

def c8CancelEv : ChatEvent :=
  ⟨"error", Json.obj [("reason", Json.str "cancelled")]⟩

/-- Four frames: valid, malformed JSON, missing data line, valid. -/
def c9Body : String :=
  "event: message_chunk\ndata: \x7b\"id\": \"m1\", \"role\": \"assistant\", \"content\": \"hi\"\x7d\n\nevent: message_chunk\ndata: \x7boops\n\nevent: message_chunk\nno data line here\n\nevent: message_chunk\ndata: \x7b\"id\": \"m2\", \"role\": \"assistant\", \"content\": \"yo\"\x7d\n\n"

def c9Ev1 : ChatEvent :=
  ⟨"message_chunk",
   Json.obj [("id", Json.str "m1"), ("role", Json.str "assistant"),
             ("content", Json.str "hi")]⟩

def c9Ev2 : ChatEvent :=
  ⟨"message_chunk",
   Json.obj [("id", Json.str "m2"), ("role", Json.str "assistant"),
             ("content", Json.str "yo")]⟩

def c10MsgPlain : Message := { id := "m1" }

def c10MsgInterrupt : Message :=
  { id := "mi", finishReason := some "interrupt" }

def c10One : StoreState :=
  { messageIds := ["mi"], messages := [("mi", c10MsgInterrupt)] }

def c10Two : StoreState :=
  { messageIds := ["m1", "mi"],
    messages := [("m1", c10MsgPlain), ("mi", c10MsgInterrupt)] }

/-! Generic helper lemmas. -/

theorem procStep_fst_consumed (t : Bool) (i : Option String) (s : ProcState)
    (e : ChatEvent) : ((procStep t i s e).1).consumed = s.consumed + 1 := by
  cases t <;> rfl

theorem procStep_fst_stored_true (i : Option String) (s : ProcState)
    (e : ChatEvent) : ((procStep true i s e).1).storedIndex = s.eventIndex + 1 :=
  rfl

theorem procStep_fst_event_true (i : Option String) (s : ProcState)
    (e : ChatEvent) : ((procStep true i s e).1).eventIndex = s.eventIndex + 1 :=
  rfl

theorem procStep_fst_store (t : Bool) (i : Option String) (s : ProcState)
    (e : ChatEvent) :
    ((procStep t i s e).1).store = (dispatchEvent i s.store e).store := by
  cases t <;> rfl

theorem procStep_fst_toasts (t : Bool) (i : Option String) (s : ProcState)
    (e : ChatEvent) :
    ((procStep t i s e).1).toasts
      = s.toasts ++ (dispatchEvent i s.store e).newToasts := by
  cases t <;> rfl

theorem procGo_singleton (t : Bool) (i : Option String) (s : ProcState)
    (e : ChatEvent) : procGo t i s [e] = (procStep t i s e).1 := by
  rcases hp : procStep t i s e with ⟨s1, c⟩
  unfold procGo
  rw [hp]
  cases c <;> simp [procGo]

theorem procGo_stored_track (i : Option String) :
    ∀ (events : List ChatEvent) (s : ProcState),
      s.eventIndex = s.storedIndex →
      (procGo true i s events).storedIndex + s.consumed
        = s.storedIndex + (procGo true i s events).consumed := by
  intro events
  induction events with
  | nil => intro s h; simp [procGo]
  | cons e rest ih =>
    intro s h
    rcases hp : procStep true i s e with ⟨s1, c⟩
    have h1 : s1.storedIndex = s.storedIndex + 1 := by
      have := procStep_fst_stored_true i s e
      rw [hp] at this; rw [this, h]
    have h2 : s1.eventIndex = s.storedIndex + 1 := by
      have := procStep_fst_event_true i s e
      rw [hp] at this; rw [this, h]
    have h3 : s1.consumed = s.consumed + 1 := by
      have := procStep_fst_consumed true i s e
      rw [hp] at this; rw [this]
    unfold procGo
    rw [hp]
    cases c with
    | true =>
      simp only [if_true]
      have := ih s1 (by rw [h2, h1])
      omega
    | false =>
      simp only [Bool.false_eq_true, if_false]
      omega

theorem mapSet_all {β : Type} (p : String × β → Bool)
    (m : List (String × β)) (k : String) (v : β)
    (hm : m.all p = true) (hv : p (k, v) = true) :
    (mapSet m k v).all p = true := by
  unfold mapSet
  split
  · rw [List.all_eq_true] at hm ⊢
    intro x hx
    rw [List.mem_map] at hx
    obtain ⟨y, hy, hxy⟩ := hx
    subst hxy
    by_cases hk : y.1 == k
    · simp only [hk, if_true]; exact hv
    · simp only [hk]; simpa using hm y hy
  · rw [List.all_eq_true] at hm ⊢
    intro x hx
    rcases List.mem_append.mp hx with h | h
    · exact hm x h
    · rcases List.mem_singleton.mp h with rfl; exact hv

theorem find?_first_split {α : Type} (p : α → Bool) :
    ∀ (ys : List α) (a : α), ys.find? p = some a →
      p a = true ∧ ∃ as bs, ys = as ++ a :: bs ∧ ∀ x ∈ as, p x = false := by
  intro ys
  induction ys with
  | nil => intro a h; simp [List.find?] at h
  | cons y ys ih =>
    intro a h
    by_cases hy : p y
    · rw [List.find?_cons_of_pos _ hy] at h
      cases h
      exact ⟨hy, [], ys, rfl, by simp⟩
    · rw [List.find?_cons_of_neg _ hy] at h
      obtain ⟨hp, as, bs, hys, hall⟩ := ih a h
      refine ⟨hp, y :: as, bs, by rw [hys]; rfl, ?_⟩
      intro x hx
      rcases List.mem_cons.mp hx with rfl | hx
      · exact Bool.eq_false_iff.mpr hy
      · exact hall x hx

theorem find?_reverse_last {α : Type} (p : α → Bool) (xs : List α) (a : α)
    (h : xs.reverse.find? p = some a) :
    p a = true ∧ ∃ pre post, xs = pre ++ a :: post ∧ ∀ x ∈ post, p x = false := by
  obtain ⟨hp, as, bs, hys, hall⟩ := find?_first_split p xs.reverse a h
  refine ⟨hp, bs.reverse, as.reverse, ?_, ?_⟩
  · have hxs := congrArg List.reverse hys
    rw [List.reverse_reverse] at hxs
    rw [hxs]
    simp [List.reverse_append]
  · intro x hx
    exact hall x (List.mem_reverse.mp hx)

/-! Structural lemmas about the store operations: the research
bookkeeping never touches the message map, and every write into the
message map during replay stores a non-streaming message. -/

theorem applyActivityAppend_messages (st : StoreState) (rid : String)
    (current : List String) (m : Message) :
    (applyActivityAppend st rid current m).messages = st.messages := by
  unfold applyActivityAppend
  split <;> rfl

theorem applyReporterLink_messages (st : StoreState) (rid : String)
    (m : Message) :
    (applyReporterLink st rid m).messages = st.messages := by
  unfold applyReporterLink
  split <;> rfl

theorem appendResearch_messages (st : StoreState) (rid : String)
    (s : StoreState) (h : appendResearch st rid = some s) :
    s.messages = st.messages := by
  unfold appendResearch at h
  split at h
  · cases h
  · cases h; rfl

theorem appendResearchActivity_messages (st : StoreState) (m : Message)
    (s : StoreState) (h : appendResearchActivity st m = some s) :
    s.messages = st.messages := by
  unfold appendResearchActivity at h
  split at h
  · cases h; rfl
  · split at h
    · cases h; rfl
    · split at h
      · cases h
      · cases h
        rw [applyReporterLink_messages, applyActivityAppend_messages]

theorem appendMessage_messages (st : StoreState) (m : Message)
    (s : StoreState) (h : appendMessage st m = some s) :
    s.messages = mapSet st.messages m.id m := by
  unfold appendMessage at h
  split at h
  · obtain ⟨st1, hst1, hmap⟩ := Option.bind_eq_some.mp h
    obtain ⟨st2, hst2, rfl⟩ := Option.map_eq_some'.mp hmap
    have e2 : st2.messages = st1.messages :=
      appendResearchActivity_messages _ _ _ hst2
    have e1 : st1.messages = st.messages := by
      split at hst1
      · obtain ⟨s0, hs0, rfl⟩ := Option.map_eq_some'.mp hst1
        show s0.messages = st.messages
        exact appendResearch_messages _ _ _ hs0
      · cases hst1; rfl
    show mapSet st2.messages m.id m = mapSet st.messages m.id m
    rw [e2, e1]
  · cases h; rfl

theorem allNonStreaming_storeUpdateMessage (st : StoreState) (m : Message)
    (hst : allNonStreaming st = true) (hm : m.isStreaming = false) :
    allNonStreaming (storeUpdateMessage st m) = true := by
  unfold allNonStreaming at *
  exact mapSet_all _ _ _ _ hst (by simp [hm])

theorem allNonStreaming_appendMessage (st : StoreState) (m : Message)
    (s : StoreState) (hst : allNonStreaming st = true)
    (hm : m.isStreaming = false) (h : appendMessage st m = some s) :
    allNonStreaming s = true := by
  have hmsg := appendMessage_messages st m s h
  unfold allNonStreaming at *
  rw [hmsg]
  exact mapSet_all _ _ _ _ hst (by simp [hm])

theorem allNonStreaming_applyMergeForced (st : StoreState) (mid : String)
    (e : ChatEvent) (hst : allNonStreaming st = true) :
    allNonStreaming (applyMergeForced st mid e) = true := by
  unfold applyMergeForced
  split
  · exact hst
  · exact allNonStreaming_storeUpdateMessage _ _ hst rfl

theorem replayStep_preserves (st : StoreState) (raw : String)
    (hst : allNonStreaming st = true) :
    allNonStreaming (replayStep st raw) = true := by
  unfold replayStep
  split
  · exact hst
  · split
    · exact hst
    · split
      · split
        · split
          · exact hst
          · exact hst
        · exact hst
      · split
        · split
          · split
            · exact allNonStreaming_applyMergeForced _ _ _ hst
            · exact hst
          · exact hst
        · split
          · exact hst
          · split
            · exact allNonStreaming_applyMergeForced _ _ _ hst
            · split
              · exact hst
              · rename_i st1 happ
                exact allNonStreaming_applyMergeForced _ _ _
                  (allNonStreaming_appendMessage _ _ _ hst rfl happ)

theorem plannerScan_none_of_noPlanner (st : StoreState)
    (h : noPlannerStored st = true) : plannerScan st = none := by
  unfold noPlannerStored at h
  unfold plannerScan
  rw [List.findSome?_eq_none_iff]
  intro mid hmid
  rw [List.mem_reverse] at hmid
  have hp := (List.all_eq_true.mp h) mid hmid
  rcases hg : mapGet st.messages mid with _ | m
  · simp [hg]
  · by_cases hpl : m.agent = some "planner"
    · rw [hg] at hp
      simp at hp
      exact absurd hpl hp
    · simp [hg, hpl]

theorem appendResearch_none_of_noPlanner (st : StoreState) (rid : String)
    (h : noPlannerStored st = true) : appendResearch st rid = none := by
  unfold appendResearch
  rw [plannerScan_none_of_noPlanner st h]

/-! Claim theorems. -/

/-- C1 (amended): on a cursor-tracked run of `processEventStream`, the
persisted cursor is incremented by one for every event *received* from
the stream — before the event is dispatched and regardless of whether
it is applied to the store — so after the run the persisted cursor
equals the initial stored index plus the number of events consumed
(`consumed` is the ghost iteration counter of the loop); in particular
a single received event always advances the persisted cursor by
exactly one, applied or not. -/
theorem C1_cursor_counts_received_events :
    (∀ (ifb : Option String) (st : StoreState) (idx : Nat)
        (events : List ChatEvent),
        (processEventStream true ifb st idx events).storedIndex
          = idx + (processEventStream true ifb st idx events).consumed)
    ∧ (∀ (ifb : Option String) (st : StoreState) (idx : Nat) (e : ChatEvent),
        (processEventStream true ifb st idx [e]).consumed = 1
        ∧ (processEventStream true ifb st idx [e]).storedIndex = idx + 1) := by
  constructor
  · intro ifb st idx events
    have h := procGo_stored_track ifb events
      { store := st, eventIndex := idx, storedIndex := idx } rfl
    simpa [processEventStream] using h
  · intro ifb st idx e
    constructor
    · unfold processEventStream
      rw [procGo_singleton, procStep_fst_consumed]
    · unfold processEventStream
      rw [procGo_singleton, procStep_fst_stored_true]
      simp

/-- C1 counterexample: from an empty store with persisted cursor 0, a
stream of three events none of which is applied (a citations envelope
with no ongoing research unit, a tool-result with no matching
invocation, and an error envelope that stops the stream) leaves the
store untouched and toast-free, yet the persisted cursor ends at 3 —
refuting the claim that the cursor equals the count of events
successfully applied and that it advances only after an apply. -/
theorem C1_counterexample :
    (processEventStream true none {} 0 c1Events).storedIndex = 3
    ∧ (processEventStream true none {} 0 c1Events).store = ({} : StoreState)
    ∧ (processEventStream true none {} 0 c1Events).toasts = ([] : List String) :=
  ⟨rfl, rfl, rfl⟩

/-- C2 (amended): appending a message from a delegated agent (coder,
reporter, researcher or analyst) while no research unit is ongoing and
no planner-agent message is reachable through the stored id list is
*not* accepted: the backward scan finds no planning message, the
non-null assertion `planMessage!.id` throws a `TypeError` before any
state is written, and the message is not appended (`appendMessage`
returns `none`, the modelled exception). -/
theorem C2_no_planner_append_throws (st : StoreState) (m : Message)
    (hagent : isDelegatedAgent m.agent = true)
    (hongoing : st.ongoingResearchId = none)
    (hplan : noPlannerStored st = true) :
    appendMessage st m = none := by
  unfold appendMessage
  rw [if_pos hagent]
  have hf : jsOptStrFalsy st.ongoingResearchId = true := by
    rw [hongoing]; rfl
  rw [if_pos hf, appendResearch_none_of_noPlanner st m.id hplan]
  rfl

/-- C2 counterexample: on an empty store (no ongoing research unit, no
planner message), appending a coder-agent message evaluates to `none`
— the modelled `TypeError` — so the append is not "accepted without
crashing" and no research unit is created. -/
theorem C2_counterexample :
    appendMessage {} { id := "r1", agent := some "coder" } = none := rfl

/-- C2 witness: the amended theorem applied to a store holding one
user message and no planner message, appending a researcher-agent
message. -/
theorem C2_witness :
    appendMessage c2State { id := "r2", agent := some "researcher" } = none :=
  C2_no_planner_append_throws c2State
    { id := "r2", agent := some "researcher" } rfl rfl rfl

/-- C3 (amended): for every store state and message whose id is
already present in the ordered id list, the store-level
`appendMessage` leaves the ordered id list unchanged (the id is
neither duplicated nor reordered), but the stored message value for
that id is overwritten with the incoming message (the map entry is
always set). -/
theorem C3_append_existing_id (st : StoreState) (m : Message)
    (h : st.messageIds.contains m.id = true) :
    (storeAppendMessage st m).messageIds = st.messageIds
    ∧ (storeAppendMessage st m).messages = mapSet st.messages m.id m := by
  constructor
  · have h2 : m.id ∈ st.messageIds := by simpa using h
    unfold storeAppendMessage
    simp [h2]
  · rfl

/-- C3 counterexample: appending a message with an existing id but new
content keeps the id list yet changes the stored content from `"x"` to
`"y"` — refuting the "stored message contents are unchanged" part of
the claim. -/
theorem C3_counterexample :
    (storeAppendMessage c3State c3MsgY).messageIds = ["a"]
    ∧ (mapGet c3State.messages "a").map (fun m => m.content) = some "x"
    ∧ (mapGet (storeAppendMessage c3State c3MsgY).messages "a").map
        (fun m => m.content) = some "y" :=
  ⟨rfl, rfl, rfl⟩

/-- C3 witness: the amended theorem applied to a two-message store. -/
theorem C3_witness :
    (storeAppendMessage c3WitState c3MsgY).messageIds = ["a", "b"] :=
  (C3_append_existing_id c3WitState c3MsgY rfl).1

/-- C4 (code bug): the reconnect transport's frame decoding does not
tolerate CRLF.  The LF variant of a two-frame stream decodes to the two
envelopes in order, but the identical CRLF variant decodes to a single
envelope — the frame splitter looks only for an LF-LF separator, which
never occurs in a CRLF stream, so everything is parsed as one chunk in
which later labelled lines overwrite earlier ones and the retained
event label keeps a trailing carriage return (`"b\r"`). -/
theorem C4_crlf_not_tolerated :
    decodeSSEBody lfBody = [⟨"a", Json.num 1⟩, ⟨"b", Json.num 2⟩]
    ∧ decodeSSEBody crlfBody = [⟨"b\r", Json.num 2⟩]
    ∧ decodeSSEBody crlfBody ≠ decodeSSEBody lfBody := by
  refine ⟨rfl, rfl, fun hcontra => ?_⟩
  have h1 : (decodeSSEBody crlfBody).length = 1 := rfl
  rw [hcontra] at h1
  have h2 : (decodeSSEBody lfBody).length = 2 := rfl
  rw [h2] at h1
  exact absurd h1 (by decide)

/-- C5: starting from any store in which every message is
non-streaming (in particular the empty store of a cold load), replaying
any durable-history frame list — which folds each decoded frame through
the same `mergeMessage` as a live envelope, skips error envelopes, and
forces `isStreaming := false` on every resulting message — leaves no
message in the store with `isStreaming = true`. -/
theorem C5_replay_forces_nonstreaming (st : StoreState)
    (frames : List String) (h : allNonStreaming st = true) :
    allNonStreaming (replayHistory st frames) = true := by
  unfold replayHistory
  induction frames generalizing st with
  | nil => exact h
  | cons f fs ih =>
    rw [List.foldl_cons]
    exact ih _ (replayStep_preserves _ _ h)

/-- C5 witness: the theorem applied to the empty store and a frame
list containing a message frame, an error frame and an undecodable
frame. -/
theorem C5_witness :
    allNonStreaming (replayHistory {} c5Frames) = true :=
  C5_replay_forces_nonstreaming {} c5Frames rfl

/-- C6: a citations envelope arriving while a research unit is ongoing
replaces that unit's citation payload with the envelope's payload
(`setCitations` over the store, a map overwrite, not a merge); while no
research unit is ongoing the envelope leaves the store unchanged; and
concretely, after payloads with url "a" then url "b" for the same
ongoing unit, the unit's citation list is exactly the "b" payload. -/
theorem C6_citation_set_replaces :
    (∀ (tr : Bool) (ifb : Option String) (st : StoreState) (idx : Nat)
        (e : ChatEvent) (rid : String) (cs : Json),
        e.type = "citations" → st.ongoingResearchId = some rid → rid ≠ "" →
        e.data.getField "citations" = some cs → jsonTruthy cs = true →
        (processEventStream tr ifb st idx [e]).store = setCitations st rid cs)
    ∧ (∀ (tr : Bool) (ifb : Option String) (st : StoreState) (idx : Nat)
        (e : ChatEvent),
        e.type = "citations" → st.ongoingResearchId = none →
        (processEventStream tr ifb st idx [e]).store = st)
    ∧ (processEventStream false none c6State 0
        [c6EvA, c6EvB]).store.researchCitations
        = [("r1", Json.arr [Json.obj [("url", Json.str "b")]])] := by
  refine ⟨?_, ?_, rfl⟩
  · intro tr ifb st idx e rid cs htype hongoing hrid hcs htruthy
    unfold processEventStream
    rw [procGo_singleton, procStep_fst_store]
    simp [dispatchEvent, htype, hongoing, hcs, hrid, htruthy]
  · intro tr ifb st idx e htype hongoing
    unfold processEventStream
    rw [procGo_singleton, procStep_fst_store]
    simp [dispatchEvent, htype, hongoing]

/-- C6 witness: the replacement branch of the theorem applied to a
store with ongoing research unit "r1" and the url-"a" citations
envelope. -/
theorem C6_witness :
    (processEventStream false none c6State 0 [c6EvA]).store
      = setCitations c6State "r1" (Json.arr [Json.obj [("url", Json.str "a")]]) :=
  C6_citation_set_replaces.1 false none c6State 0 c6EvA "r1"
    (Json.arr [Json.obj [("url", Json.str "a")]]) rfl rfl (by decide) rfl rfl

/-- C7: a `tool_call_result` envelope never creates a message (the
ordered id list is unchanged); when its tool-call id is absent or
matches no stored message's invocation list the whole store is
unchanged; when a message matches, that message is the merge target;
and the target returned by `findMessageByToolCallId` carries the id
and is the most recent such message — every message stored after it
lacks the id. -/
theorem C7_tool_result_correlation :
    (∀ (tr : Bool) (ifb : Option String) (st : StoreState) (idx : Nat)
        (e : ChatEvent), e.type = "tool_call_result" →
        (processEventStream tr ifb st idx [e]).store.messageIds = st.messageIds
        ∧ (toolCallIdOf e = none →
            (processEventStream tr ifb st idx [e]).store = st)
        ∧ (∀ tid : String, toolCallIdOf e = some tid →
            (findMessageByToolCallId st tid = none →
              (processEventStream tr ifb st idx [e]).store = st)
            ∧ (∀ m : Message, findMessageByToolCallId st tid = some m →
              (processEventStream tr ifb st idx [e]).store
                = storeUpdateMessages st [mergeMessage m e])))
    ∧ (∀ (st : StoreState) (tid : String) (m : Message),
        findMessageByToolCallId st tid = some m →
        hasToolCall tid m = true
        ∧ ∃ pre post, st.messages.map (fun p => p.2) = pre ++ m :: post
            ∧ ∀ m2 ∈ post, hasToolCall tid m2 = false) := by
  constructor
  · intro tr ifb st idx e htype
    have hstore : (processEventStream tr ifb st idx [e]).store
        = (dispatchEvent ifb st e).store := by
      unfold processEventStream
      rw [procGo_singleton, procStep_fst_store]
    refine ⟨?_, ?_, ?_⟩
    · rw [hstore]
      rcases htc : toolCallIdOf e with _ | tid
      · simp [dispatchEvent, htype, htc]
      · rcases hf : findMessageByToolCallId st tid with _ | m
        · simp [dispatchEvent, htype, htc, hf]
        · simp [dispatchEvent, htype, htc, hf, storeUpdateMessages]
    · intro htc
      rw [hstore]
      simp [dispatchEvent, htype, htc]
    · intro tid htc
      refine ⟨?_, ?_⟩
      · intro hf
        rw [hstore]
        simp [dispatchEvent, htype, htc, hf]
      · intro m hf
        rw [hstore]
        simp [dispatchEvent, htype, htc, hf]
  · intro st tid m h
    unfold findMessageByToolCallId at h
    exact find?_reverse_last _ _ _ h

/-- C7 witness: the theorem applied to a store whose two messages both
carry tool-call id "t1" — the result targets the more recent message
`c7M2` — and to an envelope whose id "tX" matches nothing — the store
is unchanged. -/
theorem C7_witness :
    (processEventStream false none c7State 0 [c7Ev]).store
      = storeUpdateMessages c7State [mergeMessage c7M2 c7Ev]
    ∧ (processEventStream false none c7State 0 [c7EvMiss]).store = c7State :=
  ⟨((C7_tool_result_correlation.1 false none c7State 0 c7Ev rfl).2.2 "t1"
      rfl).2 c7M2 rfl,
   ((C7_tool_result_correlation.1 false none c7State 0 c7EvMiss rfl).2.2 "tX"
      rfl).1 rfl⟩

/-- C8: an error envelope at the head of the remaining stream stops
the consuming loop (exactly one event is consumed, the rest are never
pulled), is not merged into any message (the store is unchanged),
produces a failure toast exactly when the carried reason is not
`"cancelled"`, and the surrounding `sendMessage` path clears the
responding flag; concretely, an error envelope with reason
`"cancelled"` yields responding = false and no toast. -/
theorem C8_error_envelope_stops :
    (∀ (ifb : Option String) (st : StoreState) (idx : Nat) (d : Json)
        (post : List ChatEvent),
        (processEventStream true ifb st idx (⟨"error", d⟩ :: post)).store = st
        ∧ (processEventStream true ifb st idx (⟨"error", d⟩ :: post)).consumed
            = 1
        ∧ (processEventStream true ifb st idx (⟨"error", d⟩ :: post)).toasts
            = (if reasonOf ⟨"error", d⟩ == some "cancelled" then []
               else [errorToastOf ⟨"error", d⟩])
        ∧ (sendMessageConsume st idx ifb
            (⟨"error", d⟩ :: post)).store.responding = false)
    ∧ (sendMessageConsume {} 0 none [c8CancelEv]).store.responding = false
    ∧ (sendMessageConsume {} 0 none [c8CancelEv]).toasts
        = ([] : List String) := by
  refine ⟨?_, rfl, rfl⟩
  intro ifb st idx d post
  exact ⟨rfl, rfl, rfl, rfl⟩

set_option maxRecDepth 16384 in
/-- C9: frame decoding fails soft — a frame whose label fold yields no
`data` value decodes to `none`, as does one whose data payload
`JSON.parse` rejects; and in a body whose second frame has malformed
JSON and whose third has no data line, exactly the two valid frames
decode, in order, and applying the decoded stream yields exactly the
two corresponding messages. -/
theorem C9_decode_fails_soft :
    (∀ chunk : String, (extractSSE chunk).2 = none →
        parseSSEEvent chunk = none)
    ∧ (∀ (chunk : String) (d : String), (extractSSE chunk).2 = some d →
        jsonParse d = none → parseSSEEvent chunk = none)
    ∧ decodeSSEBody c9Body = [c9Ev1, c9Ev2]
    ∧ (processEventStream false none {} 0
        (decodeSSEBody c9Body)).store.messageIds = ["m1", "m2"] := by
  refine ⟨?_, ?_, rfl, rfl⟩
  · intro chunk h
    rcases hx : extractSSE chunk with ⟨t, dOpt⟩
    rw [hx] at h
    have h2 : dOpt = none := h
    subst h2
    unfold parseSSEEvent
    rw [hx]
  · intro chunk d hx' hj
    rcases hx : extractSSE chunk with ⟨t, dOpt⟩
    rw [hx] at hx'
    have h2 : dOpt = some d := hx'
    subst h2
    unfold parseSSEEvent
    rw [hx]
    by_cases hd : d == ""
    · simp [hd]
    · simp [hd, hj]

/-- C9 witness: the fail-soft branches of the theorem applied to a
frame with no data line and to a frame with malformed JSON. -/
theorem C9_witness :
    parseSSEEvent "event: x\nno data line" = none
    ∧ parseSSEEvent "event: x\ndata: \x7boops" = none :=
  ⟨C9_decode_fails_soft.1 "event: x\nno data line" rfl,
   C9_decode_fails_soft.2.1 "event: x\ndata: \x7boops" "\x7boops" rfl rfl⟩

/-- C10: both interrupt read projections return `none` whenever the
store holds fewer than two message ids — so even a single stored
message with finish reason "interrupt" yields `none` from both — and
when there are at least two ids and the last one resolves to a message
with finish reason "interrupt", `useLastInterruptMessage` returns that
message and `useLastFeedbackMessageId` returns the second-to-last
id. -/
theorem C10_interrupt_projections :
    (∀ st : StoreState, st.messageIds.length < 2 →
        useLastInterruptMessage st = none
        ∧ useLastFeedbackMessageId st = none)
    ∧ (∀ (st : StoreState) (lid : String) (m : Message),
        2 ≤ st.messageIds.length →
        st.messageIds[st.messageIds.length - 1]? = some lid →
        mapGet st.messages lid = some m →
        m.finishReason = some "interrupt" →
        useLastInterruptMessage st = some m
        ∧ useLastFeedbackMessageId st
            = st.messageIds[st.messageIds.length - 2]?) := by
  constructor
  · intro st h
    have h2 : ¬ (2 ≤ st.messageIds.length) := by omega
    refine ⟨?_, ?_⟩
    · unfold useLastInterruptMessage
      rw [if_neg h2]
    · unfold useLastFeedbackMessageId
      rw [if_neg h2]
  · intro st lid m hlen hlast hget hfin
    have hfinb : (m.finishReason == some "interrupt") = true := by simp [hfin]
    refine ⟨?_, ?_⟩
    · unfold useLastInterruptMessage
      rw [if_pos hlen, hlast]
      simp [hget, hfinb]
    · unfold useLastFeedbackMessageId
      rw [if_pos hlen, hlast]
      simp [hget, hfinb]

/-- C10 witness: the theorem applied to a one-message store whose sole
message has finish reason "interrupt" (both projections `none`) and to
a two-message store whose last message has finish reason "interrupt"
(the feedback id is the second-to-last id "m1"). -/
theorem C10_witness :
    (useLastInterruptMessage c10One = none
      ∧ useLastFeedbackMessageId c10One = none)
    ∧ useLastFeedbackMessageId c10Two = some "m1" := by
  constructor
  · exact C10_interrupt_projections.1 c10One (by decide)
  · exact (C10_interrupt_projections.2 c10Two "mi" c10MsgInterrupt
      (by decide) rfl rfl rfl).2


